import Mathlib

/-!
Shallow embedding of the DevSSH agent subsystem (binary cache, deployer,
control-protocol HTTP server, event fan-out, multi-host manager, HTTP client)
together with proofs about the claims of the specification.

Conventions used throughout the embedding:
* Go strings are Lean `String`s; byte slices are `List Nat`.
* `time.Time` / `time.Duration` values are `Nat` (nanosecond clock reads);
  successive reads of the monotonic clock are passed in as parameters.
* The local filesystem is an association list from path to contents.
* External effects (SHA-256 of the crypto library, HTTP downloads, the SSH
  collaborator `RunRemoteCommand`) are oracles passed in as function
  parameters; the functions of this file translate only the repository code.
-/

namespace DevSSH

/-! ## Generic helpers (Go `strings.Contains`, map lookup) -/

/-- Boolean test that the second character list is a leading block of the
first one (helper for substring containment). -/
def hasPrefixChars : List Char → List Char → Bool
  | _, [] => true
  | [], _ :: _ => false
  | a :: s, b :: t => a == b && hasPrefixChars s t

/-- Boolean test that the second character list occurs contiguously inside
the first one. -/
def hasInfixChars : List Char → List Char → Bool
  | [], t => t.isEmpty
  | a :: s, t => hasPrefixChars (a :: s) t || hasInfixChars s t

/-- Go `strings.Contains s sub`. -/
def strContains (s sub : String) : Bool :=
  hasInfixChars s.data sub.data

/-- Lookup in a Go map modelled as an association list (first match wins). -/
def assocLookup {α : Type} (m : List (String × α)) (k : String) : Option α :=
  match m with
  | [] => none
  | (q, v) :: rest => if q = k then some v else assocLookup rest k

/-- The local filesystem: path to file contents (bytes). -/
abbrev FileSys := List (String × List Nat)

/-- Contents of the file at a path, `none` when the file does not exist
(`os.Stat` / `os.Open` failure). -/
def fsLookup (fs : FileSys) (p : String) : Option (List Nat) :=
  assocLookup fs p

/-- Remove the file at a path (`os.Remove`). -/
def fsRemove (fs : FileSys) (p : String) : FileSys :=
  fs.filter (fun e => e.1 ≠ p)

/-- Create or overwrite the file at a path. -/
def fsInsert (fs : FileSys) (p : String) (c : List Nat) : FileSys :=
  (p, c) :: fsRemove fs p

/-! ## Binary cache (`BinaryManager`, src/unnamed/part_005) -/

/-- State of a `BinaryManager` (the `timeout` field only parameterises the
HTTP client and is not part of the functional behaviour). -/
structure BinaryManager where
  cacheDir : String
  downloadURLs : List (String × String)
  checksums : List (String × String)
deriving DecidableEq, Repr

/-- The download URL table installed by `NewBinaryManager`. -/
def defaultDownloadURLs : List (String × String) :=
  [ ("linux/amd64", "https://github.com/loft-sh/devpod/releases/download/v0.6.15/devpod-linux-amd64"),
    ("linux/arm64", "https://github.com/loft-sh/devpod/releases/download/v0.6.15/devpod-linux-arm64"),
    ("darwin/amd64", "https://github.com/loft-sh/devpod/releases/download/v0.6.15/devpod-darwin-amd64"),
    ("darwin/arm64", "https://github.com/loft-sh/devpod/releases/download/v0.6.15/devpod-darwin-arm64"),
    ("windows/amd64", "https://github.com/loft-sh/devpod/releases/download/v0.6.15/devpod-windows-amd64.exe"),
    ("windows/arm64", "https://github.com/loft-sh/devpod/releases/download/v0.6.15/devpod-windows-arm64.exe") ]

/-- The checksum table installed by `NewBinaryManager`. -/
def defaultChecksums : List (String × String) :=
  [ ("linux/amd64", "a1b2c3d4e5f6789012345678901234567890123456789012345678901234567890"),
    ("linux/arm64", "b2c3d4e5f6789012345678901234567890123456789012345678901234567890a1"),
    ("darwin/amd64", "c3d4e5f6789012345678901234567890123456789012345678901234567890a1b2"),
    ("darwin/arm64", "d4e5f6789012345678901234567890123456789012345678901234567890a1b2c3"),
    ("windows/amd64", "e5f6789012345678901234567890123456789012345678901234567890a1b2c3d4"),
    ("windows/arm64", "f6789012345678901234567890123456789012345678901234567890a1b2c3d4e5") ]

/-- `NewBinaryManager`; `os.TempDir()` is modelled as "/tmp". -/
def NewBinaryManager (cacheDir : String) : BinaryManager :=
  { cacheDir := if cacheDir = "" then "/tmp/devssh-agent" else cacheDir,
    downloadURLs := defaultDownloadURLs,
    checksums := defaultChecksums }

/-- `getBinaryFilename`. -/
def getBinaryFilename (platform : String) : String :=
  if platform = "windows" then "devssh-agent.exe" else "devssh-agent"

/-- The `"{platform}/{arch}"` map key built by `fmt.Sprintf` in
`GetBinaryPath` and `DownloadBinary`. -/
def binKey (platform arch : String) : String :=
  platform ++ "/" ++ arch

/-- The version/platform/arch-scoped cache path assembled by
`filepath.Join(bm.cacheDir, version, platform, arch, filename)`. -/
def binPath (bm : BinaryManager) (platform arch version : String) : String :=
  bm.cacheDir ++ "/" ++ version ++ "/" ++ platform ++ "/" ++ arch ++ "/"
    ++ getBinaryFilename platform

/-- `verifyBinary`: compute the SHA-256 of the file (the hex digest function
`hash` is the crypto-library oracle), look up the registered checksum and
compare; verification is skipped when no checksum (or an empty one) is
registered for the key. -/
def verifyBinary (hash : List Nat → String) (bm : BinaryManager)
    (fs : FileSys) (path key : String) : Except String Unit :=
  match fsLookup fs path with
  | none => .error "open failed"
  | some c =>
    let calculated := hash c
    match assocLookup bm.checksums key with
    | none => .ok ()
    | some expected =>
      if expected = "" then .ok ()
      else if calculated ≠ expected then
        .error ("checksum mismatch: expected " ++ expected ++ ", got " ++ calculated)
      else .ok ()

/-- `isValidBinary`: the file exists, is at least 1 MiB large, and passes
`verifyBinary`. -/
def isValidBinary (hash : List Nat → String) (bm : BinaryManager)
    (fs : FileSys) (path key : String) : Bool :=
  match fsLookup fs path with
  | none => false
  | some c =>
    if c.length < 1024 * 1024 then false
    else
      match verifyBinary hash bm fs path key with
      | .ok _ => true
      | .error _ => false

/-- `DownloadBinary`. The network is the oracle `fetch` mapping a URL to the
downloaded bytes (`none` is a download failure); the middle component of the
result lists the URLs actually requested over the network. `os.MkdirAll` and
`os.Chmod` do not change the byte-level filesystem model. -/
def DownloadBinary (hash : List Nat → String) (fetch : String → Option (List Nat))
    (bm : BinaryManager) (fs : FileSys) (platform arch version : String) :
    FileSys × List String × Except String String :=
  let key := binKey platform arch
  match assocLookup bm.downloadURLs key with
  | none => (fs, [], .error ("unsupported platform/arch: " ++ platform ++ "/" ++ arch))
  | some url =>
    let path := binPath bm platform arch version
    match fetch url with
    | none => (fs, [url], .error "failed to download binary")
    | some data =>
      let fs1 := fsInsert fs path data
      match verifyBinary hash bm fs1 path key with
      | .error e =>
        (fsRemove fs1 path, [url], .error ("binary verification failed: " ++ e))
      | .ok _ => (fs1, [url], .ok path)

/-- `GetBinaryPath`: return the cached path when `isValidBinary` accepts it,
otherwise fall through to `DownloadBinary`. -/
def GetBinaryPath (hash : List Nat → String) (fetch : String → Option (List Nat))
    (bm : BinaryManager) (fs : FileSys) (platform arch version : String) :
    FileSys × List String × Except String String :=
  let key := binKey platform arch
  let path := binPath bm platform arch version
  if isValidBinary hash bm fs path key then (fs, [], .ok path)
  else DownloadBinary hash fetch bm fs platform arch version

/-! ## Deployer (src/pkg/agent/deployer.go) -/

/-- Agent configuration (`AgentConfig`, src/unnamed/part_004). `time.Duration`
is a `Nat` of nanoseconds. -/
structure AgentConfig where
  Host : String
  Port : Nat
  Token : String
  Timeout : Nat
  BinaryPath : String
  WorkDir : String
  LogFile : String
  ControlPort : Nat
  DataPort : Nat
  BindAddress : String
deriving DecidableEq, Repr

/-- `Deployer.getRemoteAgentDir`: the configured working directory, or the
default path when unset. -/
def getRemoteAgentDir (config : AgentConfig) : String :=
  if config.WorkDir ≠ "" then config.WorkDir else "~/.devssh-agent"

/-- One operation issued to the external transfer collaborators: either a
remote shell command (`RunRemoteCommand`) or a whole-file upload
(`UploadFile`). -/
inductive TransportOp
  | runCommand (cmd : String)
  | uploadFile (localPath remotePath : String)
deriving DecidableEq, Repr

/-- Whether a transport operation is a plain remote shell command. -/
def TransportOp.isRunCommand : TransportOp → Bool
  | .runCommand _ => true
  | .uploadFile _ _ => false

/-- Single-quote character (written by code point to keep the embedding
plain). -/
def sq : Char := Char.ofNat 39

/-- Double-quote character. -/
def dq : Char := Char.ofNat 34

/-- `strings.ReplaceAll(data, sq, sq dq sq dq sq)`: the shell escaping of
single quotes performed by `uploadBinary`. -/
def escQuotes : List Char → List Char
  | [] => []
  | c :: rest =>
    if c = sq then sq :: dq :: sq :: dq :: sq :: escQuotes rest
    else c :: escQuotes rest

/-- The `mkdir -p` command of `uploadBinary`. -/
def mkdirCmd (config : AgentConfig) : String :=
  "mkdir -p " ++ getRemoteAgentDir config

/-- The inline-transfer command of `uploadBinary`: the binary's bytes are
embedded, single-quote escaped, inside an `echo ... | base64 -d` pipeline. -/
def inlineUploadCmd (data : String) (config : AgentConfig) : String :=
  "echo " ++ String.mk [sq] ++ String.mk (escQuotes data.data) ++ String.mk [sq]
    ++ " | base64 -d > " ++ getRemoteAgentDir config ++ "/devssh-agent"

/-- The `chmod +x` command of `uploadBinary`. -/
def chmodCmd (config : AgentConfig) : String :=
  "chmod +x " ++ getRemoteAgentDir config ++ "/devssh-agent"

/-- `Deployer.uploadBinary`. `run` is the `RunRemoteCommand` collaborator
oracle and `data` the bytes read from the local binary (as a Go string).
Returns the exact trace of collaborator operations performed together with
the result. -/
def uploadBinary (run : String → Except String String) (data : String)
    (config : AgentConfig) : List TransportOp × Except String String :=
  let remotePath := getRemoteAgentDir config ++ "/devssh-agent"
  match run (mkdirCmd config) with
  | .error _ =>
    ([.runCommand (mkdirCmd config)], .error "failed to create remote directory")
  | .ok _ =>
    match run (inlineUploadCmd data config) with
    | .error _ =>
      ([.runCommand (mkdirCmd config), .runCommand (inlineUploadCmd data config)],
        .error "failed to upload binary")
    | .ok _ =>
      match run (chmodCmd config) with
      | .error _ =>
        ([.runCommand (mkdirCmd config), .runCommand (inlineUploadCmd data config),
          .runCommand (chmodCmd config)],
          .error "failed to set executable permission")
      | .ok _ =>
        ([.runCommand (mkdirCmd config), .runCommand (inlineUploadCmd data config),
          .runCommand (chmodCmd config)],
          .ok remotePath)

/-- The process-presence probe of `Deployer.CheckDeployed`. -/
def checkDeployedCmd : String :=
  "ps aux | grep devssh-agent | grep -v grep"

/-- `Deployer.CheckDeployed`: any transport error of the collaborator is
turned into `(false, nil)`; on success the answer is whether the output
contains the agent process name. -/
def CheckDeployed (run : String → Except String String) : Except String Bool :=
  match run checkDeployedCmd with
  | .error _ => .ok false
  | .ok output => .ok (strContains output "devssh-agent")

/-! ## Control-protocol types (src/unnamed/part_004, src/pkg/agent/interface.go) -/

/-- `AgentInfo`; `AgentStatus` is carried as its string value. -/
structure AgentInfo where
  ID : String
  Status : String
  Version : String
  PID : Nat
  StartTime : Nat
  Config : AgentConfig
deriving DecidableEq, Repr

/-- `IDEConfig`; the free-form options map is an association list. -/
structure IDEConfig where
  Typ : String
  Version : String
  Port : Nat
  Options : List (String × String)
deriving DecidableEq, Repr

/-- `IDEStatus`. -/
structure IDEStatus where
  Typ : String
  Status : String
  Port : Nat
  PID : Nat
  URL : String
  Started : Nat
  Config : IDEConfig
deriving DecidableEq, Repr

/-- `CommandRequest`. -/
structure CommandRequest where
  ID : String
  Command : String
  Args : List String
  Env : List (String × String)
  Timeout : Nat
  Stream : Bool
  WorkDir : String
deriving DecidableEq, Repr

/-- `CommandResponse`. -/
structure CommandResponse where
  ID : String
  ExitCode : Int
  Stdout : String
  Stderr : String
  Error : String
  StartTime : Nat
  EndTime : Nat
deriving DecidableEq, Repr

/-- `CommandStatus` (only the fields the server fills in). -/
structure CommandStatus where
  ID : String
  Status : String
  ExitCode : Int
  StartTime : Nat
  Duration : Nat
deriving DecidableEq, Repr

/-- `HeartbeatRequest`. -/
structure HeartbeatRequest where
  AgentID : String
  Status : String
  Time : Nat
deriving DecidableEq, Repr

/-- `ClientInfo`. -/
structure ClientInfo where
  ID : String
  AgentID : String
  Status : String
  Connected : Nat
  LastSeen : Nat
deriving DecidableEq, Repr

/-- `Event`; the `interface\x7b\x7d` payload is opaque and modelled as a
string. -/
structure Event where
  Typ : String
  Timestamp : Nat
  Data : String
  AgentID : String
deriving DecidableEq, Repr

/-- API route constants of src/unnamed/part_004. -/
def APIAgentStatus : String := "/api/v1/agent/status"

def APIAgentStart : String := "/api/v1/agent/start"

def APIAgentStop : String := "/api/v1/agent/stop"

def APIAgentRestart : String := "/api/v1/agent/restart"

def APIAgentUpdate : String := "/api/v1/agent/update"

def APIIDEList : String := "/api/v1/ide"

def APIIDEInstall : String := "/api/v1/ide/install"

def APIIDEStart : String := "/api/v1/ide/start"

def APIIDEStop : String := "/api/v1/ide/stop"

def APIIDERestart : String := "/api/v1/ide/restart"

def APICommandExecute : String := "/api/v1/command/execute"

def APIFileUpload : String := "/api/v1/file/upload"

def APIFileDownload : String := "/api/v1/file/download"

def APIFileList : String := "/api/v1/file/list"

def APIFileDelete : String := "/api/v1/file/delete"

def APIPortList : String := "/api/v1/port"

def APIPortAdd : String := "/api/v1/port/add"

def APIPortRemove : String := "/api/v1/port/remove"

def APIEvents : String := "/api/v1/events"

def APIHeartbeat : String := "/api/v1/heartbeat"

/-! ## HTTP server (src/pkg/agent/server.go) -/

/-- HTTP request method. -/
inductive Method
  | get
  | post
  | put
  | delete
  | patch
deriving DecidableEq, Repr

/-- A decoded request body: one constructor per typed payload the handlers
decode with `json.NewDecoder(r.Body).Decode`; `undecodable` stands for a body
the target type fails to decode. -/
inductive ReqBody
  | ideInstallBody (config : IDEConfig)
  | ideStartBody (t : String) (port : Nat)
  | ideStopBody (t : String)
  | commandBody (req : CommandRequest)
  | heartbeatBody (req : HeartbeatRequest)
  | configPutBody (cfg : AgentConfig)
  | undecodable
deriving DecidableEq, Repr

/-- An inbound HTTP request. -/
structure HTTPRequest where
  method : Method
  path : String
  body : Option ReqBody
deriving DecidableEq, Repr

/-- The `data` payload put into a `SuccessResponse` by the handlers. -/
inductive RespData
  | str (s : String)
  | ideList (l : List IDEStatus)
  | portList (l : List Nat)
deriving DecidableEq, Repr

/-- An outbound response body. `errEnvelope` is the serialised
`ErrorResponse` struct, `okEnvelope` the serialised `SuccessResponse`;
`plainError` is a bare `http.Error` text; the remaining constructors are the
raw typed payloads written by GET handlers. `eventStream` stands for the
long-lived SSE response, whose streaming behaviour is outside this
functional model. -/
inductive RespBody
  | errEnvelope (error : String) (code : Nat) (message : String)
  | okEnvelope (data : RespData)
  | plainError (msg : String)
  | healthPayload (status version uptime : String)
  | agentInfoPayload (info : AgentInfo)
  | ideStatusPayload (st : IDEStatus)
  | commandRespPayload (resp : CommandResponse)
  | commandStatusPayload (st : CommandStatus)
  | heartbeatPayload (time : Nat)
  | configPayload (cfg : AgentConfig)
  | eventStream
deriving DecidableEq, Repr

/-- An outbound HTTP response: status code plus body. -/
structure HTTPResponse where
  status : Nat
  body : RespBody
deriving DecidableEq, Repr

/-- `net/http.StatusText`, restricted to the codes this server uses. -/
def statusText (code : Nat) : String :=
  if code = 200 then "OK"
  else if code = 400 then "Bad Request"
  else if code = 404 then "Not Found"
  else if code = 405 then "Method Not Allowed"
  else if code = 501 then "Not Implemented"
  else ""

/-- `HTTPServer.respondError`: the structured error envelope
`\x7berror, code, message\x7d` under the given status code. -/
def respondError (message : String) (code : Nat) : HTTPResponse :=
  { status := code, body := .errEnvelope (statusText code) code message }

/-- `HTTPServer.respondSuccess`: the success envelope under HTTP 200. -/
def respondSuccess (data : RespData) : HTTPResponse :=
  { status := 200, body := .okEnvelope data }

/-- The `http.Error(w, "Method not allowed", 405)` response used by the
method-checking handlers. -/
def methodNotAllowed : HTTPResponse :=
  { status := 405, body := .plainError "Method not allowed" }

/-- Mutable server state touched by the modelled handlers. -/
structure ServerState where
  config : AgentConfig
  agentInfo : AgentInfo
  clients : List (String × ClientInfo)
deriving DecidableEq, Repr

/-- `handleHealth`: GET only. -/
def handleHealth (s : ServerState) (uptime : String) (r : HTTPRequest) : HTTPResponse :=
  if r.method ≠ .get then methodNotAllowed
  else { status := 200, body := .healthPayload "healthy" s.agentInfo.Version uptime }

/-- `handleAgentStatus`: GET only. -/
def handleAgentStatus (s : ServerState) (r : HTTPRequest) : HTTPResponse :=
  if r.method ≠ .get then methodNotAllowed
  else { status := 200, body := .agentInfoPayload s.agentInfo }

/-- `handleAgentStart`. -/
def handleAgentStart (_r : HTTPRequest) : HTTPResponse :=
  respondError "Agent already running" 400

/-- `handleAgentStop`; the asynchronous `Stop` goroutine it spawns is outside
this functional model, only the response is modelled. -/
def handleAgentStop (_r : HTTPRequest) : HTTPResponse :=
  respondSuccess (.str "Agent stopping")

/-- `handleAgentRestart`. -/
def handleAgentRestart (_r : HTTPRequest) : HTTPResponse :=
  respondError "Not implemented" 501

/-- `handleAgentUpdate`. -/
def handleAgentUpdate (_r : HTTPRequest) : HTTPResponse :=
  respondError "Not implemented" 501

/-- `handleIDEList`. -/
def handleIDEList (_r : HTTPRequest) : HTTPResponse :=
  respondSuccess (.ideList [])

/-- `handleIDEInstall`: decode the body (no method check in the source),
then answer with the success envelope; the simulated install sleep has no
functional content. -/
def handleIDEInstall (r : HTTPRequest) : HTTPResponse :=
  match r.body with
  | some (.ideInstallBody _config) => respondSuccess (.str "IDE installed")
  | _ => respondError "Invalid request body" 400

/-- `handleIDEStart`. -/
def handleIDEStart (r : HTTPRequest) : HTTPResponse :=
  match r.body with
  | some (.ideStartBody _t _port) => respondSuccess (.str "IDE started")
  | _ => respondError "Invalid request body" 400

/-- `handleIDEStop`. -/
def handleIDEStop (r : HTTPRequest) : HTTPResponse :=
  match r.body with
  | some (.ideStopBody _t) => respondSuccess (.str "IDE stopped")
  | _ => respondError "Invalid request body" 400

/-- `handleIDERestart`. -/
def handleIDERestart (_r : HTTPRequest) : HTTPResponse :=
  respondError "Not implemented" 501

/-- IDE type extraction of `handleIDEStatus`: the path segment after
"/api/v1/ide/" (12 characters), cut at the next slash. -/
def parseIDETypeSeg (path : String) : String :=
  String.mk ((path.data.drop 12).takeWhile (fun c => c ≠ '/'))

/-- `handleIDEStatus` (the "/api/v1/ide/" subtree handler). -/
def handleIDEStatus (r : HTTPRequest) : HTTPResponse :=
  { status := 200,
    body := .ideStatusPayload
      { Typ := parseIDETypeSeg r.path, Status := "stopped", Port := 0,
        PID := 0, URL := "", Started := 0,
        Config := { Typ := "", Version := "", Port := 0, Options := [] } } }

/-- `handleCommandExecute`: decode a `CommandRequest`, generate an id when
the caller supplied none, and answer with the canned simulated response.
`t1` and `t2` are the two successive `time.Now()` reads; `genID` the
generated command id. -/
def handleCommandExecute (t1 t2 : Nat) (genID : String) (r : HTTPRequest) : HTTPResponse :=
  match r.body with
  | some (.commandBody req) =>
    let id := if req.ID = "" then genID else req.ID
    { status := 200,
      body := .commandRespPayload
        { ID := id, ExitCode := 0, Stdout := "Command executed successfully",
          Stderr := "", Error := "", StartTime := t1, EndTime := t2 } }
  | _ => respondError "Invalid request body" 400

/-- Command id extraction of `handleCommandStatus`: the path segment after
"/api/v1/command/" (16 characters), cut at the next slash. -/
def parseCommandIDSeg (path : String) : String :=
  String.mk ((path.data.drop 16).takeWhile (fun c => c ≠ '/'))

/-- `handleCommandStatus` (the "/api/v1/command/" subtree handler). -/
def handleCommandStatus (r : HTTPRequest) : HTTPResponse :=
  { status := 200,
    body := .commandStatusPayload
      { ID := parseCommandIDSeg r.path, Status := "finished",
        ExitCode := 0, StartTime := 0, Duration := 0 } }

/-- `handleFileUpload`. -/
def handleFileUpload (_r : HTTPRequest) : HTTPResponse :=
  respondError "Not implemented" 501

/-- `handleFileDownload`. -/
def handleFileDownload (_r : HTTPRequest) : HTTPResponse :=
  respondError "Not implemented" 501

/-- `handleFileList`. -/
def handleFileList (_r : HTTPRequest) : HTTPResponse :=
  respondError "Not implemented" 501

/-- `handleFileDelete`. -/
def handleFileDelete (_r : HTTPRequest) : HTTPResponse :=
  respondError "Not implemented" 501

/-- `handlePortList`. -/
def handlePortList (_r : HTTPRequest) : HTTPResponse :=
  respondSuccess (.portList [])

/-- `handlePortAdd`. -/
def handlePortAdd (_r : HTTPRequest) : HTTPResponse :=
  respondError "Not implemented" 501

/-- `handlePortRemove`. -/
def handlePortRemove (_r : HTTPRequest) : HTTPResponse :=
  respondError "Not implemented" 501

/-- `handleHeartbeat`: decode, refresh the client's `LastSeen`, answer with
the server time (`now` is the `time.Now()` read). -/
def handleHeartbeat (now : Nat) (s : ServerState) (r : HTTPRequest) :
    ServerState × HTTPResponse :=
  match r.body with
  | some (.heartbeatBody req) =>
    let clients :=
      match assocLookup s.clients req.AgentID with
      | some client =>
        fsMapSet s.clients req.AgentID { client with LastSeen := now }
      | none => s.clients
    ({ s with clients := clients },
      { status := 200, body := .heartbeatPayload now })
  | _ => (s, respondError "Invalid request body" 400)
where
  /-- Update one key of an association list, keeping order. -/
  fsMapSet (m : List (String × ClientInfo)) (k : String) (v : ClientInfo) :
      List (String × ClientInfo) :=
    m.map (fun e => if e.1 = k then (k, v) else e)

/-- `handleConfig`: GET reads, PUT replaces both the config and the embedded
copy in `agentInfo`, anything else is 405. -/
def handleConfig (s : ServerState) (r : HTTPRequest) : ServerState × HTTPResponse :=
  match r.method with
  | .get => (s, { status := 200, body := .configPayload s.config })
  | .put =>
    match r.body with
    | some (.configPutBody newConfig) =>
      ({ s with config := newConfig,
                agentInfo := { s.agentInfo with Config := newConfig } },
        respondSuccess (.str "Config updated"))
    | _ => (s, respondError "Invalid request body" 400)
  | _ => (s, methodNotAllowed)

/-- One route handler tag per `mux.HandleFunc` registration of
`setupRoutes`. -/
inductive HandlerTag
  | health
  | agentStatus
  | agentStart
  | agentStop
  | agentRestart
  | agentUpdate
  | ideList
  | ideInstall
  | ideStart
  | ideStop
  | ideRestart
  | ideStatus
  | commandExecute
  | commandStatus
  | fileUpload
  | fileDownload
  | fileList
  | fileDelete
  | portList
  | portAdd
  | portRemove
  | events
  | heartbeat
  | configRoute
deriving DecidableEq, Repr

/-- The exact-path registrations of `setupRoutes`. -/
def exactRoutes : List (String × HandlerTag) :=
  [ ("/health", .health),
    (APIAgentStatus, .agentStatus),
    (APIAgentStart, .agentStart),
    (APIAgentStop, .agentStop),
    (APIAgentRestart, .agentRestart),
    (APIAgentUpdate, .agentUpdate),
    (APIIDEList, .ideList),
    (APIIDEInstall, .ideInstall),
    (APIIDEStart, .ideStart),
    (APIIDEStop, .ideStop),
    (APIIDERestart, .ideRestart),
    (APICommandExecute, .commandExecute),
    (APIFileUpload, .fileUpload),
    (APIFileDownload, .fileDownload),
    (APIFileList, .fileList),
    (APIFileDelete, .fileDelete),
    (APIPortList, .portList),
    (APIPortAdd, .portAdd),
    (APIPortRemove, .portRemove),
    (APIEvents, .events),
    (APIHeartbeat, .heartbeat),
    ("/api/v1/config", .configRoute) ]

/-- Boolean string leading-block test for the subtree patterns. -/
def strHasLeading (s pat : String) : Bool :=
  hasPrefixChars s.data pat.data

/-- `http.ServeMux` resolution for the registered patterns: an exact pattern
wins over the two subtree patterns "/api/v1/ide/" and "/api/v1/command/"
(Go's mux prefers the longest matching pattern). -/
def resolveRoute (path : String) : Option HandlerTag :=
  match assocLookup exactRoutes path with
  | some tag => some tag
  | none =>
    if strHasLeading path "/api/v1/ide/" then some .ideStatus
    else if strHasLeading path "/api/v1/command/" then some .commandStatus
    else none

/-- One request/response step of the HTTP server: route the path, run the
handler, return the possibly-updated state and the response. `t1 t2` are
successive clock reads, `genID` the freshly generated command id, `uptime`
the formatted uptime string. -/
def serverRespond (s : ServerState) (t1 t2 : Nat) (genID uptime : String)
    (r : HTTPRequest) : ServerState × HTTPResponse :=
  match resolveRoute r.path with
  | none => (s, { status := 404, body := .plainError "404 page not found" })
  | some tag =>
    match tag with
    | .health => (s, handleHealth s uptime r)
    | .agentStatus => (s, handleAgentStatus s r)
    | .agentStart => (s, handleAgentStart r)
    | .agentStop => (s, handleAgentStop r)
    | .agentRestart => (s, handleAgentRestart r)
    | .agentUpdate => (s, handleAgentUpdate r)
    | .ideList => (s, handleIDEList r)
    | .ideInstall => (s, handleIDEInstall r)
    | .ideStart => (s, handleIDEStart r)
    | .ideStop => (s, handleIDEStop r)
    | .ideRestart => (s, handleIDERestart r)
    | .ideStatus => (s, handleIDEStatus r)
    | .commandExecute => (s, handleCommandExecute t1 t2 genID r)
    | .commandStatus => (s, handleCommandStatus r)
    | .fileUpload => (s, handleFileUpload r)
    | .fileDownload => (s, handleFileDownload r)
    | .fileList => (s, handleFileList r)
    | .fileDelete => (s, handleFileDelete r)
    | .portList => (s, handlePortList r)
    | .portAdd => (s, handlePortAdd r)
    | .portRemove => (s, handlePortRemove r)
    | .events => (s, { status := 200, body := .eventStream })
    | .heartbeat => handleHeartbeat t2 s r
    | .configRoute => handleConfig s r

/-! ## Event fan-out (`HTTPServer.eventHandler` / `sendEvent`,
src/pkg/agent/server.go) -/

/-- One subscriber channel as registered in `HTTPServer.subscribers`: its
queued events and its buffer capacity (`handleEvents` creates each with
capacity 10). -/
structure Subscriber where
  buffer : List Event
  capacity : Nat
deriving DecidableEq, Repr

/-- The non-blocking `select \x7b case ch <- event: default: \x7d` send used
by the dispatcher: enqueue when the buffer has free capacity, otherwise skip
and drop the event for this subscriber. -/
def trySend (sub : Subscriber) (e : Event) : Subscriber :=
  if sub.buffer.length < sub.capacity then { sub with buffer := sub.buffer ++ [e] }
  else sub

/-- One iteration of the dispatcher loop of `eventHandler`: fan one event
out to every registered subscriber with the non-blocking send. -/
def dispatchEvent (subs : List (String × Subscriber)) (e : Event) :
    List (String × Subscriber) :=
  subs.map (fun p => (p.1, trySend p.2 e))

/-! ## Manager (`Manager.Close`, src/pkg/agent/factory.go) -/

deriving instance DecidableEq for Except

/-- The three registries of a `Manager`. Each registered handle is modelled
by the host key together with the result its `Close` (agents, clients) or
`Stop` (servers) call returns when the manager invokes it. -/
structure ManagerState where
  agents : List (String × Except String Unit)
  clients : List (String × Except String Unit)
  servers : List (String × Except String Unit)
deriving DecidableEq, Repr

/-- Whether one registry entry's close/stop call fails. -/
def entryFails (e : String × Except String Unit) : Bool :=
  match e.2 with
  | .ok _ => false
  | .error _ => true

/-- The wrapped per-entry error message produced by `fmt.Errorf`
("failed to close agent %s: %w" and its client/server variants). -/
def closeErrMsg (step host msg : String) : String :=
  "failed to " ++ step ++ " " ++ host ++ ": " ++ msg

/-- The per-entry error strings collected while iterating one registry, each
wrapped with the failing step and host exactly as `fmt.Errorf` does. -/
def closeErrorsWith (step : String) (l : List (String × Except String Unit)) :
    List String :=
  l.filterMap (fun e =>
    match e.2 with
    | .ok _ => none
    | .error msg => some (closeErrMsg step e.1 msg))

/-- All error strings `Manager.Close` collects, in iteration order over the
agent, client and server registries. -/
def managerCloseErrors (m : ManagerState) : List String :=
  closeErrorsWith "close agent" m.agents
    ++ closeErrorsWith "close client" m.clients
    ++ closeErrorsWith "stop server" m.servers

/-- The hosts whose handles `Manager.Close` invokes, in order: every
registered agent, client and server. -/
def managerCloseCalls (m : ManagerState) : List String :=
  m.agents.map Prod.fst ++ m.clients.map Prod.fst ++ m.servers.map Prod.fst

/-- `Manager.Close`: close/stop every registered handle, collect every
per-entry error, clear all three registries, and return `none` (nil error)
only when nothing failed; `some errs` models the aggregate
"multiple errors occurred" error carrying every collected entry. -/
def managerClose (m : ManagerState) : ManagerState × Option (List String) :=
  let errs := managerCloseErrors m
  ({ agents := [], clients := [], servers := [] },
    if errs = [] then none else some errs)

/-! ## HTTP client teardown (`HTTPClient.Close` / `Disconnect` /
`UnsubscribeEvents`, src/unnamed/part_005) -/

/-- The fields of an `HTTPClient` relevant to teardown. `eventsOpen` records
whether the current `events` channel is still open; Go's `close` on an
already-closed channel is a runtime panic, modelled below by `none`. -/
structure ClientState where
  connected : Bool
  subscribed : Bool
  eventsOpen : Bool
deriving DecidableEq, Repr

/-- The teardown-relevant state of a freshly constructed `NewHTTPClient`:
the events channel is freshly made and open. -/
def newClientState : ClientState :=
  { connected := false, subscribed := false, eventsOpen := true }

/-- `HTTPClient.Close`: clear the flags then `close(c.events)`; `none` is
the runtime panic raised when the channel is already closed. -/
def clientCloseOp (s : ClientState) : Option ClientState :=
  if s.eventsOpen then
    some { connected := false, subscribed := false, eventsOpen := false }
  else none

/-- `HTTPClient.Disconnect` delegates to `Close`. -/
def clientDisconnect (s : ClientState) : Option ClientState :=
  clientCloseOp s

/-- `HTTPClient.UnsubscribeEvents`: clear `subscribed`, `close(c.events)`
(panicking when already closed), then replace the channel with a fresh open
one. -/
def unsubscribeEvents (s : ClientState) : Option ClientState :=
  if s.eventsOpen then
    some { s with subscribed := false, eventsOpen := true }
  else none

/-! ## Helper lemmas -/

theorem hasPrefixChars_append (t rest : List Char) :
    hasPrefixChars (t ++ rest) t = true := by
  induction t with
  | nil => cases rest <;> rfl
  | cons a t ih => simp [hasPrefixChars, ih]

theorem hasInfixChars_mid (pre t rest : List Char) :
    hasInfixChars (pre ++ (t ++ rest)) t = true := by
  induction pre with
  | nil =>
    cases t with
    | nil =>
      cases rest with
      | nil => rfl
      | cons b bs => simp [hasInfixChars, hasPrefixChars]
    | cons c t' =>
      have h := hasPrefixChars_append (c :: t') rest
      simp only [List.cons_append] at h
      simp [hasInfixChars, List.append_eq, h]
  | cons p pre ih =>
    simp [hasInfixChars, List.append_eq, ih]

theorem fsLookup_fsRemove_self (fs : FileSys) (p : String) :
    fsLookup (fsRemove fs p) p = none := by
  induction fs with
  | nil => rfl
  | cons e rest ih =>
    by_cases h : e.1 = p
    · simpa [fsRemove, fsLookup, assocLookup, h] using ih
    · simpa [fsRemove, fsLookup, assocLookup, h] using ih

theorem fsLookup_fsInsert_self (fs : FileSys) (p : String) (c : List Nat) :
    fsLookup (fsInsert fs p c) p = some c := by
  simp [fsInsert, fsLookup, assocLookup]

theorem fsLookup_single (p : String) (v : List Nat) :
    fsLookup [(p, v)] p = some v := by
  simp [fsLookup, assocLookup]

theorem verify_ok_hash_eq (hash : List Nat → String) (bm : BinaryManager)
    (fs : FileSys) (path key : String) (d : List Nat) (chk : String)
    (hd : fsLookup fs path = some d)
    (hchk : assocLookup bm.checksums key = some chk) (hne : chk ≠ "")
    (hok : verifyBinary hash bm fs path key = .ok ()) : hash d = chk := by
  unfold verifyBinary at hok
  rw [hd, hchk] at hok
  simp only [if_neg hne] at hok
  by_cases h : hash d = chk
  · exact h
  · simp [h] at hok

/-! ## Claim C1 -/

/-- Support values for the claim C1 counterexample. -/
def c1Chk : String :=
  "a1b2c3d4e5f6789012345678901234567890123456789012345678901234567890"

def c1URL : String :=
  "https://github.com/loft-sh/devpod/releases/download/v0.6.15/devpod-linux-amd64"

def c1Path : String :=
  binPath (NewBinaryManager "") "linux" "amd64" "v1"

def c1FS : FileSys := [(c1Path, [0])]

def c1Hash : List Nat → String := fun _ => c1Chk

def c1Fetch : String → Option (List Nat) := fun _ => none

/-- Claim C1, counterexample: a cached file that exists, is non-empty (one
byte) and whose SHA-256 matches the registered checksum for
"linux/amd64" is nevertheless not returned as a cache hit — the code
additionally requires at least 1 MiB, so `GetBinaryPath` goes to the network
(here: one download request that fails). -/
theorem getBinaryPath_nonempty_match_not_cacheHit :
    (fsLookup c1FS c1Path = some [0]
      ∧ 0 < ([0] : List Nat).length
      ∧ assocLookup (NewBinaryManager "").checksums "linux/amd64" = some c1Chk
      ∧ c1Hash [0] = c1Chk)
    ∧ (GetBinaryPath c1Hash c1Fetch (NewBinaryManager "") c1FS "linux" "amd64" "v1").2.1
        = [c1URL]
    ∧ GetBinaryPath c1Hash c1Fetch (NewBinaryManager "") c1FS "linux" "amd64" "v1"
        ≠ (c1FS, [], .ok c1Path) := by
  decide

/-- Claim C1 (amended): the cache hit requires the cached file to be at
least 1 MiB (not merely non-empty) in addition to the matching registered
checksum, and resolving a target with no registered download URL fails with
the unsupported-target error. -/
theorem getBinaryPath_cacheHit_and_unsupportedTarget
    (hash : List Nat → String) (fetch : String → Option (List Nat))
    (bm : BinaryManager) (fs : FileSys) (platform arch version : String) :
    (∀ c chk, fsLookup fs (binPath bm platform arch version) = some c →
        1024 * 1024 ≤ c.length →
        assocLookup bm.checksums (binKey platform arch) = some chk →
        chk ≠ "" → hash c = chk →
        GetBinaryPath hash fetch bm fs platform arch version
          = (fs, [], .ok (binPath bm platform arch version)))
    ∧ (isValidBinary hash bm fs (binPath bm platform arch version)
          (binKey platform arch) = false →
        assocLookup bm.downloadURLs (binKey platform arch) = none →
        GetBinaryPath hash fetch bm fs platform arch version
          = (fs, [], .error ("unsupported platform/arch: " ++ platform ++ "/" ++ arch))) := by
  constructor
  · intro c chk hc hlen hchk hne hhash
    have hver : verifyBinary hash bm fs (binPath bm platform arch version)
        (binKey platform arch) = .ok () := by
      unfold verifyBinary
      rw [hc, hchk]
      simp [if_neg hne, hhash]
    have hv : isValidBinary hash bm fs (binPath bm platform arch version)
        (binKey platform arch) = true := by
      unfold isValidBinary
      rw [hc, hver]
      simp [Nat.not_lt.mpr hlen]
    simp [GetBinaryPath, hv]
  · intro hv hurl
    simp [GetBinaryPath, DownloadBinary, hv, hurl]

/-- Support values for the claim C1 witness. -/
def c1wFS : FileSys := [(c1Path, List.replicate (1024 * 1024) 0)]

/-- Claim C1 witness: the amended theorem applied at a 1 MiB cached file
with matching checksum, and at the unregistered target "plan9/z". -/
theorem getBinaryPath_cacheHit_and_unsupportedTarget_witness :
    GetBinaryPath c1Hash c1Fetch (NewBinaryManager "") c1wFS "linux" "amd64" "v1"
        = (c1wFS, [], .ok (binPath (NewBinaryManager "") "linux" "amd64" "v1"))
    ∧ GetBinaryPath c1Hash c1Fetch (NewBinaryManager "") [] "plan9" "z" "v1"
        = ([], [], .error ("unsupported platform/arch: plan9/z")) := by
  constructor
  · exact (getBinaryPath_cacheHit_and_unsupportedTarget c1Hash c1Fetch
      (NewBinaryManager "") c1wFS "linux" "amd64" "v1").1
      (List.replicate (1024 * 1024) 0) c1Chk
      (fsLookup_single c1Path (List.replicate (1024 * 1024) 0))
      (by simp only [List.length_replicate, le_refl])
      (by decide)
      (by decide)
      rfl
  · exact (getBinaryPath_cacheHit_and_unsupportedTarget c1Hash c1Fetch
      (NewBinaryManager "") [] "plan9" "z" "v1").2
      rfl
      (by decide)

/-! ## Claim C2 -/

/-- Claim C2: on a checksum mismatch `DownloadBinary` deletes the downloaded
file and returns a verification error; verification is skipped exactly when
no checksum (or an empty one) is registered for the key; a corrupted cached
file is rejected by the next resolve — `GetBinaryPath` falls through to a
re-download and any successful resolve result points at contents matching
the registered checksum. -/
theorem downloadBinary_verification_contract
    (hash : List Nat → String) (fetch : String → Option (List Nat))
    (bm : BinaryManager) (fs : FileSys) (platform arch version : String) :
    (∀ url data chk,
        assocLookup bm.downloadURLs (binKey platform arch) = some url →
        fetch url = some data →
        assocLookup bm.checksums (binKey platform arch) = some chk →
        chk ≠ "" → hash data ≠ chk →
        DownloadBinary hash fetch bm fs platform arch version
          = (fsRemove (fsInsert fs (binPath bm platform arch version) data)
               (binPath bm platform arch version), [url],
             .error ("binary verification failed: checksum mismatch: expected "
               ++ chk ++ ", got " ++ hash data))
        ∧ fsLookup (DownloadBinary hash fetch bm fs platform arch version).1
            (binPath bm platform arch version) = none)
    ∧ (∀ path key c, fsLookup fs path = some c →
        ((assocLookup bm.checksums key = none ∨ assocLookup bm.checksums key = some "") →
          verifyBinary hash bm fs path key = .ok ())
        ∧ (∀ chk, assocLookup bm.checksums key = some chk → chk ≠ "" →
            (verifyBinary hash bm fs path key = .ok () ↔ hash c = chk)))
    ∧ (∀ c chk,
        fsLookup fs (binPath bm platform arch version) = some c →
        assocLookup bm.checksums (binKey platform arch) = some chk →
        chk ≠ "" → hash c ≠ chk →
        isValidBinary hash bm fs (binPath bm platform arch version)
            (binKey platform arch) = false
        ∧ GetBinaryPath hash fetch bm fs platform arch version
            = DownloadBinary hash fetch bm fs platform arch version
        ∧ (∀ fs2 urls p,
            GetBinaryPath hash fetch bm fs platform arch version = (fs2, urls, .ok p) →
            ∃ d, fsLookup fs2 p = some d ∧ hash d = chk)) := by
  refine ⟨?_, ?_, ?_⟩
  · intro url data chk hurl hfetch hchk hne hmm
    have hver : verifyBinary hash bm (fsInsert fs (binPath bm platform arch version) data)
        (binPath bm platform arch version) (binKey platform arch)
        = .error ("checksum mismatch: expected " ++ chk ++ ", got " ++ hash data) := by
      unfold verifyBinary
      rw [fsLookup_fsInsert_self, hchk]
      simp [if_neg hne, hmm]
    have heq : DownloadBinary hash fetch bm fs platform arch version
        = (fsRemove (fsInsert fs (binPath bm platform arch version) data)
             (binPath bm platform arch version), [url],
           .error ("binary verification failed: checksum mismatch: expected "
             ++ chk ++ ", got " ++ hash data)) := by
      simp only [DownloadBinary, hurl, hfetch, hver]
      simp only [← String.append_assoc]
      rfl
    refine ⟨heq, ?_⟩
    rw [heq]
    exact fsLookup_fsRemove_self _ _
  · intro path key c hc
    constructor
    · intro hdis
      unfold verifyBinary
      rw [hc]
      rcases hdis with h2 | h2 <;> simp [h2]
    · intro chk hchk hne
      unfold verifyBinary
      rw [hc, hchk]
      simp only [if_neg hne]
      by_cases hh : hash c = chk <;> simp [hh]
  · intro c chk hc hchk hne hcorrupt
    have hver : verifyBinary hash bm fs (binPath bm platform arch version)
        (binKey platform arch)
        = .error ("checksum mismatch: expected " ++ chk ++ ", got " ++ hash c) := by
      unfold verifyBinary
      rw [hc, hchk]
      simp [if_neg hne, hcorrupt]
    have hinvalid : isValidBinary hash bm fs (binPath bm platform arch version)
        (binKey platform arch) = false := by
      unfold isValidBinary
      rw [hc, hver]
      by_cases hl : c.length < 1024 * 1024 <;> simp [hl]
    have hfall : GetBinaryPath hash fetch bm fs platform arch version
        = DownloadBinary hash fetch bm fs platform arch version := by
      simp [GetBinaryPath, hinvalid]
    refine ⟨hinvalid, hfall, ?_⟩
    intro fs2 urls p heq
    rw [hfall] at heq
    rcases h1 : assocLookup bm.downloadURLs (binKey platform arch) with _ | url
    · simp [DownloadBinary, h1] at heq
    · rcases h2 : fetch url with _ | data
      · simp [DownloadBinary, h1, h2] at heq
      · rcases h3 : verifyBinary hash bm
            (fsInsert fs (binPath bm platform arch version) data)
            (binPath bm platform arch version) (binKey platform arch) with e | u
        · simp [DownloadBinary, h1, h2, h3] at heq
        · cases u
          simp only [DownloadBinary, h1, h2, h3] at heq
          simp only [Prod.mk.injEq, Except.ok.injEq] at heq
          obtain ⟨h4, h5, h6⟩ := heq
          subst h4
          subst h6
          exact ⟨data, fsLookup_fsInsert_self fs (binPath bm platform arch version) data,
            verify_ok_hash_eq hash bm (fsInsert fs (binPath bm platform arch version) data)
              (binPath bm platform arch version) (binKey platform arch) data chk
              (fsLookup_fsInsert_self fs (binPath bm platform arch version) data) hchk hne h3⟩

/-- Support values for the claim C2 witness. -/
def c2Chk : String :=
  "a1b2c3d4e5f6789012345678901234567890123456789012345678901234567890"

def c2URL : String :=
  "https://github.com/loft-sh/devpod/releases/download/v0.6.15/devpod-linux-amd64"

def c2Path : String :=
  binPath (NewBinaryManager "") "linux" "amd64" "v1"

def c2Hash : List Nat → String :=
  fun c => if c = [7] then c2Chk else "deadbeef"

def c2FetchBad : String → Option (List Nat) := fun _ => some [1]

def c2FetchGood : String → Option (List Nat) := fun _ => some [7]

/-- Claim C2 witness: the contract applied to concrete mismatching and
matching downloads, to a key with no registered checksum, and to a corrupted
cached file followed by a successful re-download. -/
theorem downloadBinary_verification_contract_witness :
    (DownloadBinary c2Hash c2FetchBad (NewBinaryManager "") [] "linux" "amd64" "v1"
        = (fsRemove (fsInsert [] c2Path [1]) c2Path, [c2URL],
           .error ("binary verification failed: checksum mismatch: expected "
             ++ c2Chk ++ ", got " ++ c2Hash [1]))
      ∧ fsLookup (DownloadBinary c2Hash c2FetchBad (NewBinaryManager "")
          [] "linux" "amd64" "v1").1 c2Path = none)
    ∧ verifyBinary c2Hash (NewBinaryManager "") [("f", [2])] "f" "x/y" = .ok ()
    ∧ verifyBinary c2Hash (NewBinaryManager "") [("f", [2])] "f" "linux/amd64" ≠ .ok ()
    ∧ isValidBinary c2Hash (NewBinaryManager "") [(c2Path, [2])] c2Path "linux/amd64" = false
    ∧ GetBinaryPath c2Hash c2FetchGood (NewBinaryManager "") [(c2Path, [2])] "linux" "amd64" "v1"
        = DownloadBinary c2Hash c2FetchGood (NewBinaryManager "") [(c2Path, [2])] "linux" "amd64" "v1"
    ∧ ∃ d, fsLookup (fsInsert [(c2Path, [2])] c2Path [7]) c2Path = some d ∧ c2Hash d = c2Chk := by
  have h1 := (downloadBinary_verification_contract c2Hash c2FetchBad
    (NewBinaryManager "") [] "linux" "amd64" "v1").1 c2URL [1] c2Chk
    (by decide) rfl (by decide) (by decide) (by decide)
  have h2 := ((downloadBinary_verification_contract c2Hash c2FetchBad
    (NewBinaryManager "") [("f", [2])] "linux" "amd64" "v1").2.1 "f" "x/y" [2]
    (by decide)).1 (by left; decide)
  have h3 := ((downloadBinary_verification_contract c2Hash c2FetchBad
    (NewBinaryManager "") [("f", [2])] "linux" "amd64" "v1").2.1 "f" "linux/amd64" [2]
    (by decide)).2 c2Chk (by decide) (by decide)
  have h4 := (downloadBinary_verification_contract c2Hash c2FetchGood
    (NewBinaryManager "") [(c2Path, [2])] "linux" "amd64" "v1").2.2 [2] c2Chk
    (by decide) (by decide) (by decide) (by decide)
  refine ⟨h1, h2, ?_, h4.1, h4.2.1, ?_⟩
  · intro hok
    exact absurd (h3.mp hok) (by decide)
  · exact h4.2.2 (fsInsert [(c2Path, [2])] c2Path [7]) [c2URL] c2Path (by decide)

/-! ## Claim C3 -/

/-- Claim C3, evaluation of the code: `Deployer.uploadBinary` never issues a
`UploadFile` operation — every transfer step is a remote shell command, and
on success the binary travelled inside the inline `echo ... | base64 -d`
command. This contradicts the claim (and the spec's normative guidance),
which requires the file-upload collaborator. -/
theorem uploadBinary_inline_remote_command_only
    (run : String → Except String String) (data : String) (config : AgentConfig) :
    ((uploadBinary run data config).1.all TransportOp.isRunCommand = true)
    ∧ ((uploadBinary run data config).2 = .error "failed to create remote directory"
        ∨ (uploadBinary run data config).2 = .error "failed to upload binary"
        ∨ (uploadBinary run data config).2 = .error "failed to set executable permission"
        ∨ ((uploadBinary run data config).2
              = .ok (getRemoteAgentDir config ++ "/devssh-agent")
            ∧ (uploadBinary run data config).1
              = [.runCommand (mkdirCmd config),
                 .runCommand (inlineUploadCmd data config),
                 .runCommand (chmodCmd config)])) := by
  rcases h1 : run (mkdirCmd config) with e1 | o1
  · simp [uploadBinary, h1, TransportOp.isRunCommand]
  · rcases h2 : run (inlineUploadCmd data config) with e2 | o2
    · simp [uploadBinary, h1, h2, TransportOp.isRunCommand]
    · rcases h3 : run (chmodCmd config) with e3 | o3 <;>
        simp [uploadBinary, h1, h2, h3, TransportOp.isRunCommand]

/-! ## Claim C4 -/

/-- Claim C4: `CheckDeployed` maps any collaborator error to `(false, nil)`
(the transport error is swallowed), and on success answers whether the probe
output contains the agent process name. -/
theorem checkDeployed_probe_contract (run : String → Except String String) :
    (∀ e, run checkDeployedCmd = .error e → CheckDeployed run = .ok false)
    ∧ (∀ out, run checkDeployedCmd = .ok out →
        CheckDeployed run = .ok (strContains out "devssh-agent")) := by
  constructor
  · intro e he
    simp [CheckDeployed, he]
  · intro out ho
    simp [CheckDeployed, ho]

/-- Support oracles for the claim C4 witness. -/
def c4RunErr : String → Except String String := fun _ => .error "connection refused"

def c4RunOk : String → Except String String :=
  fun _ => .ok "user 4242 ./devssh-agent --config config.json"

/-- Claim C4 witness: a failing transport yields `(false, nil)`; a
successful probe whose output mentions the process yields `(true, nil)`. -/
theorem checkDeployed_probe_contract_witness :
    CheckDeployed c4RunErr = .ok false ∧ CheckDeployed c4RunOk = .ok true := by
  constructor
  · exact (checkDeployed_probe_contract c4RunErr).1 "connection refused" rfl
  · have h := (checkDeployed_probe_contract c4RunOk).2
      "user 4242 ./devssh-agent --config config.json" rfl
    simpa using h

/-! ## Claims C5, C6, C7: concrete server fixtures -/

/-- A sample agent configuration used to instantiate server-state facts. -/
def sampleConfig : AgentConfig :=
  { Host := "example.org", Port := 22, Token := "", Timeout := 0,
    BinaryPath := "", WorkDir := "", LogFile := "", ControlPort := 8081,
    DataPort := 8080, BindAddress := "127.0.0.1" }

/-- A sample agent record. -/
def sampleInfo : AgentInfo :=
  { ID := "agent-1", Status := "running", Version := "0.1.0", PID := 0,
    StartTime := 0, Config := sampleConfig }

/-- A sample server state. -/
def sampleState : ServerState :=
  { config := sampleConfig, agentInfo := sampleInfo, clients := [] }

/-- The routes whose handlers only answer "Not implemented". -/
def unimplementedPaths : List String :=
  [APIAgentRestart, APIAgentUpdate, APIIDERestart, APIFileUpload,
   APIFileDownload, APIFileList, APIFileDelete, APIPortAdd, APIPortRemove]

/-! ## Claim C5 -/

/-- Claim C5: every request to an unimplemented route (agent restart/update,
IDE restart, file upload/download/list/delete, port add/remove) is answered
with the structured error envelope under HTTP 501, never a success envelope,
and the server state is unchanged. -/
theorem unimplemented_routes_respond_501 (s : ServerState) (t1 t2 : Nat)
    (genID uptime : String) (r : HTTPRequest) (hp : r.path ∈ unimplementedPaths) :
    serverRespond s t1 t2 genID uptime r
      = (s, { status := 501,
              body := .errEnvelope "Not Implemented" 501 "Not implemented" })
    ∧ ∀ d, (serverRespond s t1 t2 genID uptime r).2.body ≠ RespBody.okEnvelope d := by
  obtain ⟨m, p, b⟩ := r
  simp only [unimplementedPaths, List.mem_cons, List.not_mem_nil, or_false] at hp
  rcases hp with h | h | h | h | h | h | h | h | h <;> subst h <;>
    exact ⟨rfl, fun d => by
      simp [serverRespond, resolveRoute, exactRoutes, assocLookup,
        handleAgentRestart, handleAgentUpdate, handleIDERestart, handleFileUpload,
        handleFileDownload, handleFileList, handleFileDelete, handlePortAdd,
        handlePortRemove, respondError, statusText, APIAgentRestart, APIAgentUpdate,
        APIIDERestart, APIFileUpload, APIFileDownload, APIFileList, APIFileDelete,
        APIPortAdd, APIPortRemove, APIAgentStatus, APIAgentStart, APIAgentStop,
        APIIDEList, APIIDEInstall, APIIDEStart, APIIDEStop, APICommandExecute,
        APIPortList, APIEvents, APIHeartbeat, strHasLeading]⟩

/-- Claim C5 witness: a file-upload request receives the 501 error
envelope. -/
theorem unimplemented_routes_respond_501_witness :
    serverRespond sampleState 0 0 "cmd-1" "0s"
        { method := .post, path := APIFileUpload, body := none }
      = (sampleState,
         { status := 501,
           body := .errEnvelope "Not Implemented" 501 "Not implemented" })
    ∧ ∀ d, (serverRespond sampleState 0 0 "cmd-1" "0s"
        { method := .post, path := APIFileUpload, body := none }).2.body
        ≠ RespBody.okEnvelope d :=
  unimplemented_routes_respond_501 sampleState 0 0 "cmd-1" "0s"
    { method := .post, path := APIFileUpload, body := none } (by decide)

/-! ## Claim C6 -/

/-- A sample IDE configuration. -/
def c6IDECfg : IDEConfig :=
  { Typ := "vscode", Version := "", Port := 8080, Options := [] }

/-- Claim C6, counterexample: a GET request to the mutating IDE-install
route is not rejected with 405 — the handler executes and answers the
success envelope, because `handleIDEInstall` never checks the method. -/
theorem ide_install_wrong_method_not_405 :
    (serverRespond sampleState 0 0 "cmd-1" "0s"
        { method := .get, path := APIIDEInstall,
          body := some (.ideInstallBody c6IDECfg) }).2
      = respondSuccess (.str "IDE installed")
    ∧ (serverRespond sampleState 0 0 "cmd-1" "0s"
        { method := .get, path := APIIDEInstall,
          body := some (.ideInstallBody c6IDECfg) }).2.status = 200
    ∧ (serverRespond sampleState 0 0 "cmd-1" "0s"
        { method := .get, path := APIIDEInstall,
          body := some (.ideInstallBody c6IDECfg) }).2.status ≠ 405 := by
  decide

/-- Claim C6 (amended): the health, agent-status and config routes reject
requests whose method differs from their declared methods with 405, without
executing the handler; every mutating route — agent stop, IDE
install/start/stop, command execute, heartbeat — executes its handler
identically for every HTTP method: with a decodable body it produces its
normal 200 response whatever the method, never 405. -/
theorem method_enforcement_as_implemented
    (s : ServerState) (t1 t2 : Nat) (genID uptime : String) (r : HTTPRequest) :
    (r.path = "/health" → r.method ≠ .get →
      serverRespond s t1 t2 genID uptime r = (s, methodNotAllowed))
    ∧ (r.path = APIAgentStatus → r.method ≠ .get →
      serverRespond s t1 t2 genID uptime r = (s, methodNotAllowed))
    ∧ (r.path = "/api/v1/config" → r.method ≠ .get → r.method ≠ .put →
      serverRespond s t1 t2 genID uptime r = (s, methodNotAllowed))
    ∧ (∀ m b, serverRespond s t1 t2 genID uptime
        { method := m, path := APIAgentStop, body := b }
        = (s, respondSuccess (.str "Agent stopping")))
    ∧ (∀ m cfg, serverRespond s t1 t2 genID uptime
        { method := m, path := APIIDEInstall, body := some (.ideInstallBody cfg) }
        = (s, respondSuccess (.str "IDE installed")))
    ∧ (∀ m t port, serverRespond s t1 t2 genID uptime
        { method := m, path := APIIDEStart, body := some (.ideStartBody t port) }
        = (s, respondSuccess (.str "IDE started")))
    ∧ (∀ m t, serverRespond s t1 t2 genID uptime
        { method := m, path := APIIDEStop, body := some (.ideStopBody t) }
        = (s, respondSuccess (.str "IDE stopped")))
    ∧ (∀ m req, serverRespond s t1 t2 genID uptime
        { method := m, path := APICommandExecute, body := some (.commandBody req) }
        = (s, { status := 200,
                body := .commandRespPayload
                  { ID := if req.ID = "" then genID else req.ID, ExitCode := 0,
                    Stdout := "Command executed successfully", Stderr := "",
                    Error := "", StartTime := t1, EndTime := t2 } }))
    ∧ (∀ m req, serverRespond s t1 t2 genID uptime
        { method := m, path := APIHeartbeat, body := some (.heartbeatBody req) }
        = handleHeartbeat t2 s
            { method := .post, path := APIHeartbeat, body := some (.heartbeatBody req) })
    ∧ (∀ m req, (serverRespond s t1 t2 genID uptime
        { method := m, path := APIHeartbeat, body := some (.heartbeatBody req) }).2
        = { status := 200, body := .heartbeatPayload t2 }) := by
  obtain ⟨m, p, b⟩ := r
  refine ⟨?_, ?_, ?_, ?_, ?_, ?_, ?_, ?_, ?_, ?_⟩
  · intro hp hm
    subst hp
    cases m
    · exact absurd rfl hm
    all_goals rfl
  · intro hp hm
    subst hp
    cases m
    · exact absurd rfl hm
    all_goals rfl
  · intro hp hm1 hm2
    subst hp
    cases m
    · exact absurd rfl hm1
    · rfl
    · exact absurd rfl hm2
    · rfl
    · rfl
  · intro m2 b2
    cases m2 <;> rfl
  · intro m2 cfg
    cases m2 <;> rfl
  · intro m2 t port
    cases m2 <;> rfl
  · intro m2 t
    cases m2 <;> rfl
  · intro m2 req
    cases m2 <;> rfl
  · intro m2 req
    cases m2 <;> rfl
  · intro m2 req
    cases m2 <;> rfl

/-- A sample heartbeat request body. -/
def c6Heartbeat : HeartbeatRequest :=
  { AgentID := "agent-1", Status := "running", Time := 3 }

/-- A sample command request body. -/
def c6Command : CommandRequest :=
  { ID := "cmd-9", Command := "true", Args := [], Env := [],
    Timeout := 0, Stream := false, WorkDir := "" }

/-- Claim C6 witness: concrete wrong-method requests to the three
method-checking routes receive 405, while wrong-method requests to each of
the six mutating routes (agent stop, IDE install/start/stop, command
execute, heartbeat) still execute their handlers and answer their normal
200 responses. -/
theorem method_enforcement_as_implemented_witness :
    serverRespond sampleState 0 0 "cmd-1" "0s"
        { method := .post, path := "/health", body := none }
      = (sampleState, methodNotAllowed)
    ∧ serverRespond sampleState 0 0 "cmd-1" "0s"
        { method := .delete, path := APIAgentStatus, body := none }
      = (sampleState, methodNotAllowed)
    ∧ serverRespond sampleState 0 0 "cmd-1" "0s"
        { method := .post, path := "/api/v1/config", body := none }
      = (sampleState, methodNotAllowed)
    ∧ serverRespond sampleState 0 0 "cmd-1" "0s"
        { method := .get, path := APIAgentStop, body := none }
      = (sampleState, respondSuccess (.str "Agent stopping"))
    ∧ serverRespond sampleState 0 0 "cmd-1" "0s"
        { method := .delete, path := APIIDEInstall,
          body := some (.ideInstallBody c6IDECfg) }
      = (sampleState, respondSuccess (.str "IDE installed"))
    ∧ serverRespond sampleState 0 0 "cmd-1" "0s"
        { method := .get, path := APIIDEStart, body := some (.ideStartBody "vscode" 8080) }
      = (sampleState, respondSuccess (.str "IDE started"))
    ∧ serverRespond sampleState 0 0 "cmd-1" "0s"
        { method := .patch, path := APIIDEStop, body := some (.ideStopBody "vscode") }
      = (sampleState, respondSuccess (.str "IDE stopped"))
    ∧ serverRespond sampleState 0 0 "cmd-1" "0s"
        { method := .get, path := APICommandExecute, body := some (.commandBody c6Command) }
      = (sampleState,
         { status := 200,
           body := .commandRespPayload
             { ID := if c6Command.ID = "" then "cmd-1" else c6Command.ID,
               ExitCode := 0, Stdout := "Command executed successfully",
               Stderr := "", Error := "", StartTime := 0, EndTime := 0 } })
    ∧ serverRespond sampleState 0 0 "cmd-1" "0s"
        { method := .get, path := APIHeartbeat, body := some (.heartbeatBody c6Heartbeat) }
      = handleHeartbeat 0 sampleState
          { method := .post, path := APIHeartbeat, body := some (.heartbeatBody c6Heartbeat) }
    ∧ (serverRespond sampleState 0 0 "cmd-1" "0s"
        { method := .get, path := APIHeartbeat, body := some (.heartbeatBody c6Heartbeat) }).2
      = { status := 200, body := .heartbeatPayload 0 } := by
  refine ⟨?_, ?_, ?_, ?_, ?_, ?_, ?_, ?_, ?_, ?_⟩
  · exact (method_enforcement_as_implemented sampleState 0 0 "cmd-1" "0s"
      { method := .post, path := "/health", body := none }).1 rfl (by decide)
  · exact (method_enforcement_as_implemented sampleState 0 0 "cmd-1" "0s"
      { method := .delete, path := APIAgentStatus, body := none }).2.1 rfl (by decide)
  · exact (method_enforcement_as_implemented sampleState 0 0 "cmd-1" "0s"
      { method := .post, path := "/api/v1/config", body := none }).2.2.1
      rfl (by decide) (by decide)
  · exact (method_enforcement_as_implemented sampleState 0 0 "cmd-1" "0s"
      { method := .get, path := APIAgentStop, body := none }).2.2.2.1 .get none
  · exact (method_enforcement_as_implemented sampleState 0 0 "cmd-1" "0s"
      { method := .delete, path := APIIDEInstall,
        body := some (.ideInstallBody c6IDECfg) }).2.2.2.2.1 .delete c6IDECfg
  · exact (method_enforcement_as_implemented sampleState 0 0 "cmd-1" "0s"
      { method := .get, path := APIIDEStart,
        body := some (.ideStartBody "vscode" 8080) }).2.2.2.2.2.1 .get "vscode" 8080
  · exact (method_enforcement_as_implemented sampleState 0 0 "cmd-1" "0s"
      { method := .patch, path := APIIDEStop,
        body := some (.ideStopBody "vscode") }).2.2.2.2.2.2.1 .patch "vscode"
  · exact (method_enforcement_as_implemented sampleState 0 0 "cmd-1" "0s"
      { method := .get, path := APICommandExecute,
        body := some (.commandBody c6Command) }).2.2.2.2.2.2.2.1 .get c6Command
  · exact (method_enforcement_as_implemented sampleState 0 0 "cmd-1" "0s"
      { method := .get, path := APIHeartbeat,
        body := some (.heartbeatBody c6Heartbeat) }).2.2.2.2.2.2.2.2.1 .get c6Heartbeat
  · exact (method_enforcement_as_implemented sampleState 0 0 "cmd-1" "0s"
      { method := .get, path := APIHeartbeat,
        body := some (.heartbeatBody c6Heartbeat) }).2.2.2.2.2.2.2.2.2 .get c6Heartbeat

/-! ## Claim C7 -/

/-- The scenario-C request: execute `echo hi`. -/
def c7Request : HTTPRequest :=
  { method := .post, path := APICommandExecute,
    body := some (.commandBody
      { ID := "", Command := "echo hi", Args := [], Env := [],
        Timeout := 0, Stream := false, WorkDir := "" }) }

/-- Claim C7, evaluation of the code at the scenario input: the
command-execute route answers the canned simulated response — exit code 0
and `EndTime ≥ StartTime` hold, but the stdout is the fixed string
"Command executed successfully", which does not contain "hi", because the
handler never runs the command. -/
theorem commandExecute_echo_hi_stubbed :
    (serverRespond sampleState 5 7 "cmd-1" "0s" c7Request).2
      = { status := 200,
          body := .commandRespPayload
            { ID := "cmd-1", ExitCode := 0,
              Stdout := "Command executed successfully", Stderr := "",
              Error := "", StartTime := 5, EndTime := 7 } }
    ∧ strContains "Command executed successfully" "hi" = false
    ∧ (5 : Nat) ≤ 7 := by
  decide

/-! ## Claim C8 -/

theorem closeErrorsWith_length (step : String)
    (l : List (String × Except String Unit)) :
    (closeErrorsWith step l).length = (l.filter entryFails).length := by
  induction l with
  | nil => rfl
  | cons e rest ih =>
    rcases e with ⟨host, res⟩
    cases res <;> simp [closeErrorsWith, entryFails, ih] <;>
      simpa [closeErrorsWith] using ih

theorem mem_closeErrorsWith (step host msg : String)
    (l : List (String × Except String Unit))
    (h : (host, Except.error msg) ∈ l) :
    closeErrMsg step host msg ∈ closeErrorsWith step l :=
  List.mem_filterMap.mpr ⟨(host, Except.error msg), h, rfl⟩

theorem strContains_closeErrMsg (step host msg : String) :
    strContains (closeErrMsg step host msg) host = true := by
  have h := hasInfixChars_mid ("failed to ".data ++ step.data ++ " ".data)
    host.data (": ".data ++ msg.data)
  have h1 : (closeErrMsg step host msg).data
      = "failed to ".data ++ step.data ++ " ".data ++ host.data
        ++ ": ".data ++ msg.data := by
    simp [closeErrMsg, String.data_append]
  unfold strContains
  rw [h1]
  simpa [List.append_assoc] using h

/-- Claim C8: `Manager.Close` empties all three registries regardless of
per-entry failures, returns a nil error exactly when no entry failed,
collects one wrapped error per failing entry (no short-circuit: the error
count equals the failing-entry count across all three registries), and each
collected error message names its failing host. -/
theorem managerClose_contract (m : ManagerState) :
    (managerClose m).1.agents = []
    ∧ (managerClose m).1.clients = []
    ∧ (managerClose m).1.servers = []
    ∧ ((managerClose m).2 = none ↔ managerCloseErrors m = [])
    ∧ (managerCloseErrors m).length
        = (m.agents.filter entryFails).length
          + (m.clients.filter entryFails).length
          + (m.servers.filter entryFails).length
    ∧ (∀ host msg, (host, Except.error msg) ∈ m.agents →
        closeErrMsg "close agent" host msg ∈ managerCloseErrors m
        ∧ strContains (closeErrMsg "close agent" host msg) host = true)
    ∧ (∀ host msg, (host, Except.error msg) ∈ m.clients →
        closeErrMsg "close client" host msg ∈ managerCloseErrors m
        ∧ strContains (closeErrMsg "close client" host msg) host = true)
    ∧ (∀ host msg, (host, Except.error msg) ∈ m.servers →
        closeErrMsg "stop server" host msg ∈ managerCloseErrors m
        ∧ strContains (closeErrMsg "stop server" host msg) host = true) := by
  refine ⟨rfl, rfl, rfl, ?_, ?_, ?_, ?_, ?_⟩
  · by_cases he : managerCloseErrors m = [] <;> simp [managerClose, he]
  · simp [managerCloseErrors, closeErrorsWith_length, Nat.add_assoc]
  · intro host msg h
    exact ⟨List.mem_append_left _
        (List.mem_append_left _ (mem_closeErrorsWith "close agent" host msg _ h)),
      strContains_closeErrMsg _ _ _⟩
  · intro host msg h
    exact ⟨List.mem_append_left _
        (List.mem_append_right _ (mem_closeErrorsWith "close client" host msg _ h)),
      strContains_closeErrMsg _ _ _⟩
  · intro host msg h
    exact ⟨List.mem_append_right _ (mem_closeErrorsWith "stop server" host msg _ h),
      strContains_closeErrMsg _ _ _⟩

/-- A manager state with failing and succeeding handles in all three
registries. -/
def c8State : ManagerState :=
  { agents := [("h1", .error "boom"), ("h2", .ok ())],
    clients := [("h3", .error "refused")],
    servers := [("h4", .error "stuck")] }

/-- Claim C8 witness: with three failing handles out of four, all registries
end empty, three wrapped errors are collected, and each names its host. -/
theorem managerClose_contract_witness :
    (managerClose c8State).1.agents = []
    ∧ (managerClose c8State).1.clients = []
    ∧ (managerClose c8State).1.servers = []
    ∧ (managerCloseErrors c8State).length = 3
    ∧ closeErrMsg "close agent" "h1" "boom" ∈ managerCloseErrors c8State
    ∧ strContains (closeErrMsg "close agent" "h1" "boom") "h1" = true
    ∧ closeErrMsg "close client" "h3" "refused" ∈ managerCloseErrors c8State
    ∧ closeErrMsg "stop server" "h4" "stuck" ∈ managerCloseErrors c8State := by
  have h := managerClose_contract c8State
  refine ⟨h.1, h.2.1, h.2.2.1, ?_, (h.2.2.2.2.2.1 "h1" "boom" (by decide)).1,
    (h.2.2.2.2.2.1 "h1" "boom" (by decide)).2,
    (h.2.2.2.2.2.2.1 "h3" "refused" (by decide)).1,
    (h.2.2.2.2.2.2.2 "h4" "stuck" (by decide)).1⟩
  rw [h.2.2.2.2.1]
  decide

/-! ## Claim C9 -/

/-- Claim C9: dispatching one event is a total function on the subscriber
registry — every subscriber's new state is `trySend` of its own old state
(so one subscriber's full buffer cannot affect any other), a subscriber with
free buffer capacity receives the event at the tail of its buffer, and a
subscriber with a full buffer is skipped unchanged. -/
theorem dispatchEvent_fanout (subs : List (String × Subscriber)) (e : Event) :
    (dispatchEvent subs e).length = subs.length
    ∧ (∀ i : Nat, (dispatchEvent subs e)[i]?
        = (subs[i]?).map (fun p => (p.1, trySend p.2 e)))
    ∧ (∀ sub : Subscriber, sub.buffer.length < sub.capacity →
        (trySend sub e).buffer = sub.buffer ++ [e])
    ∧ (∀ sub : Subscriber, ¬ sub.buffer.length < sub.capacity →
        trySend sub e = sub) := by
  refine ⟨?_, ?_, ?_, ?_⟩
  · simp [dispatchEvent]
  · intro i
    simp [dispatchEvent, List.getElem?_map]
  · intro sub h
    simp [trySend, h]
  · intro sub h
    simp [trySend, h]

/-- Sample events and subscribers for the claim C9 witness. -/
def c9Event : Event :=
  { Typ := "client_connected", Timestamp := 1, Data := "", AgentID := "a" }

def c9EventOld : Event :=
  { Typ := "ide_started", Timestamp := 0, Data := "", AgentID := "a" }

def c9Free : Subscriber := { buffer := [], capacity := 10 }

def c9Full : Subscriber := { buffer := [c9EventOld], capacity := 1 }

def c9Subs : List (String × Subscriber) := [("s1", c9Free), ("s2", c9Full)]

/-- Claim C9 witness: with one free and one full subscriber, the free one
receives the event, the full one is skipped unchanged, and both are
processed (length preserved, per-index image). -/
theorem dispatchEvent_fanout_witness :
    (dispatchEvent c9Subs c9Event).length = c9Subs.length
    ∧ (dispatchEvent c9Subs c9Event)[0]? = some ("s1", trySend c9Free c9Event)
    ∧ (trySend c9Free c9Event).buffer = [] ++ [c9Event]
    ∧ trySend c9Full c9Event = c9Full := by
  have h := dispatchEvent_fanout c9Subs c9Event
  refine ⟨h.1, ?_, h.2.2.1 c9Free (by decide), h.2.2.2 c9Full (by decide)⟩
  have h2 := h.2.1 0
  simpa [c9Subs] using h2

/-! ## Claim C10 -/

/-- Claim C10: `HTTPClient.Close` is not idempotent — after one successful
`Close`, a further `Close`, `Disconnect` (which delegates to `Close`), or
`UnsubscribeEvents` closes the already-closed events channel and panics
(modelled by `none`); from a fresh client the first `Close` succeeds. -/
theorem httpClient_close_not_idempotent (s s' : ClientState)
    (h : clientCloseOp s = some s') :
    clientCloseOp s' = none
    ∧ clientDisconnect s' = none
    ∧ unsubscribeEvents s' = none
    ∧ clientCloseOp newClientState
        = some { connected := false, subscribed := false, eventsOpen := false } := by
  have hs : s.eventsOpen = true := by
    by_cases hh : s.eventsOpen = true
    · exact hh
    · simp [clientCloseOp, hh] at h
  have hs' : s' = { connected := false, subscribed := false, eventsOpen := false } := by
    simp [clientCloseOp, hs] at h
    exact h.symm
  subst hs'
  exact ⟨rfl, rfl, rfl, rfl⟩

/-- Claim C10 witness: the theorem applied to the fresh client state, whose
first `Close` succeeds. -/
theorem httpClient_close_not_idempotent_witness :
    clientCloseOp { connected := false, subscribed := false, eventsOpen := false } = none
    ∧ clientDisconnect { connected := false, subscribed := false, eventsOpen := false } = none
    ∧ unsubscribeEvents { connected := false, subscribed := false, eventsOpen := false } = none
    ∧ clientCloseOp newClientState
        = some { connected := false, subscribed := false, eventsOpen := false } :=
  httpClient_close_not_idempotent newClientState
    { connected := false, subscribed := false, eventsOpen := false } rfl

end DevSSH
